import Mathlib

/-!
Shallow embedding of the `llm_labo` frontend client (chat/session store,
citation rendering, cache invalidation hooks) and proofs of its specified
properties.

Conventions for embedding the TypeScript source:
* JS objects with optional fields become structures with `Option` fields;
  a field value `none` stands for the property being absent or `undefined`.
* A `Partial<T>` argument (where the presence of a key matters separately
  from its value) becomes a structure of `Option (Option _)` fields:
  outer `none` = key absent, `some v` = key present with value `v`
  (`v = none` standing for an explicit `undefined`).
* JS numbers that hold scores are embedded as `ℚ`; integer ids and years as
  `Int`; `Math.round` becomes `⌊q + 1/2⌋`.
* Nondeterministic inputs of the runtime (`crypto.randomUUID()`,
  `new Date()`) are passed as explicit parameters.
-/

namespace LlmLabo

/-! ### Data model (src/frontend/src/api/types.ts) -/

/-- `Source` from types.ts: a retrieval hit attached to an assistant message. -/
structure Source where
  document_id : String
  title : String
  authors : Option String
  year : Option Int
  page : Option Int
  relevance_score : ℚ
  deriving Repr, DecidableEq

inductive Role where
  | user
  | assistant
  deriving Repr, DecidableEq

/-- `Message` from types.ts. -/
structure Message where
  id : String
  role : Role
  content : String
  sources : Option (List Source)
  processingTime : Option Nat
  timestamp : Nat
  deriving Repr, DecidableEq

/-- `ChatFilters` from types.ts: all three fields optional. -/
structure ChatFilters where
  yearMin : Option Int
  yearMax : Option Int
  authors : Option (List String)
  deriving Repr, DecidableEq

/-- `QueryResponse` from types.ts. -/
structure QueryResponse where
  answer : String
  sources : List Source
  processing_time_ms : Nat
  deriving Repr, DecidableEq

/-! ### Session store (chatStore, src/unnamed/part_011) -/

/-- The `Omit<Message, 'id' | 'timestamp'>` argument of `addMessage`. -/
structure MessageDraft where
  role : Role
  content : String
  sources : Option (List Source)
  processingTime : Option Nat
  deriving Repr, DecidableEq

/-- `Partial<ChatFilters>`: each key may be absent (outer `none`) or present
with a possibly-`undefined` value (inner `Option`). -/
structure FiltersPatch where
  yearMin : Option (Option Int) := none
  yearMax : Option (Option Int) := none
  authors : Option (Option (List String)) := none
  deriving Repr, DecidableEq

/-- The zustand `ChatState` (without the action closures). -/
structure ChatState where
  messages : List Message
  filters : ChatFilters
  isProcessing : Bool
  deriving Repr, DecidableEq

/-- The store's creation-time state: `messages: [], filters: {}, isProcessing: false`. -/
def initialChatState : ChatState :=
  { messages := [], filters := ⟨none, none, none⟩, isProcessing := false }

/-- `addMessage`: appends `{...message, id: crypto.randomUUID(), timestamp: new Date()}`.
The fresh id and timestamp are explicit parameters of the embedding. -/
def addMessage (s : ChatState) (d : MessageDraft) (id : String) (ts : Nat) : ChatState :=
  { s with
    messages := s.messages ++
      [{ id := id, role := d.role, content := d.content, sources := d.sources,
         processingTime := d.processingTime, timestamp := ts }] }

/-- `setProcessing`. -/
def setProcessing (s : ChatState) (b : Bool) : ChatState :=
  { s with isProcessing := b }

/-- The object spread `{ ...state.filters, ...filters }`: a key present in the
patch (outer `some`) overwrites the prior field, even when its value is
`undefined`; an absent key keeps the prior field. -/
def mergeFilters (f : ChatFilters) (p : FiltersPatch) : ChatFilters :=
  { yearMin := p.yearMin.getD f.yearMin
    yearMax := p.yearMax.getD f.yearMax
    authors := p.authors.getD f.authors }

/-- `setFilters`. -/
def setFilters (s : ChatState) (p : FiltersPatch) : ChatState :=
  { s with filters := mergeFilters s.filters p }

/-- `clearFilters`: `set({ filters: {} })`. -/
def clearFilters (s : ChatState) : ChatState :=
  { s with filters := ⟨none, none, none⟩ }

/-- `clearMessages`: `set({ messages: [] })`. -/
def clearMessages (s : ChatState) : ChatState :=
  { s with messages := [] }

/-- One store mutation, for quantifying over arbitrary call sequences. -/
inductive StoreOp where
  | add (d : MessageDraft) (id : String) (ts : Nat)
  | setProcessing (b : Bool)
  | setFilters (p : FiltersPatch)
  | clearFilters
  | clearMessages
  deriving Repr

def applyOp (s : ChatState) : StoreOp → ChatState
  | .add d id ts => addMessage s d id ts
  | .setProcessing b => setProcessing s b
  | .setFilters p => setFilters s p
  | .clearFilters => clearFilters s
  | .clearMessages => clearMessages s

/-- Run a sequence of store mutations from a starting state. -/
def runOps (s : ChatState) (ops : List StoreOp) : ChatState :=
  ops.foldl applyOp s

/-! ### Persistence (the persist middleware configuration in part_011) -/

/-- The shape written to durable storage under the key `rag-chat-storage`. -/
structure PersistedState where
  messages : List Message
  filters : ChatFilters
  deriving Repr, DecidableEq

/-- JS `Array.prototype.slice` with a single negative argument `-n`:
elements from index `max(length - n, 0)` to the end (`Nat` subtraction
already truncates at 0). -/
def jsSliceLast (n : Nat) (l : List Message) : List Message :=
  l.drop (l.length - n)

/-- The persist middleware's state-to-storage projection:
`{ messages: state.messages.slice(-50), filters: state.filters }`. -/
def persistedState (s : ChatState) : PersistedState :=
  { messages := jsSliceLast 50 s.messages, filters := s.filters }

/-! ### FilterPanel (src/frontend/src/components/chat/FilterPanel.tsx) -/

/-- JS `parseInt` as applied by `handleApply`. The two year inputs are
`type="number"` fields, so the non-empty strings reaching `parseInt` are
integer literals; `toInt?` covers exactly those, with an arbitrary value on
the unreachable non-numeric branch. -/
def jsParseInt (str : String) : Int :=
  (str.toInt?).getD 0

/-- `authorsInput.split(',').map((a) => a.trim()).filter(Boolean)`. -/
def splitAuthors (str : String) : List String :=
  ((str.splitOn ",").map String.trim).filter (· ≠ "")

/-- `FilterPanel.handleApply`: always passes all three keys to `setFilters`,
each with value `undefined` when its input string is empty (JS string
truthiness: only `""` is falsy). -/
def handleApply (s : ChatState) (yearMinS yearMaxS authorsS : String) : ChatState :=
  setFilters s
    { yearMin := some (if yearMinS = "" then none else some (jsParseInt yearMinS))
      yearMax := some (if yearMaxS = "" then none else some (jsParseInt yearMaxS))
      authors := some (if authorsS = "" then none else some (splitAuthors authorsS)) }

/-! ### ChatPage.handleSubmit (src/frontend/src/pages/ChatPage.tsx) -/

/-- The user-turn draft built at the top of `handleSubmit`. -/
def userDraft (question : String) : MessageDraft :=
  { role := .user, content := question, sources := none, processingTime := none }

/-- The assistant-turn draft appended on backend success. -/
def assistantDraft (r : QueryResponse) : MessageDraft :=
  { role := .assistant, content := r.answer, sources := some r.sources,
    processingTime := some r.processing_time_ms }

/-- The assistant-turn draft appended in the `catch` branch. -/
def errorDraft : MessageDraft :=
  { role := .assistant
    content := "Désolé, une erreur s'est produite lors du traitement de votre question. Veuillez réessayer."
    sources := none, processingTime := none }

/-- The store state at the moment `ragQuery.mutateAsync` is dispatched: the
user message has already been appended synchronously. -/
def handleSubmitDispatchState (s : ChatState) (question : String)
    (id1 : String) (ts1 : Nat) : ChatState :=
  addMessage s (userDraft question) id1 ts1

/-- `QueryRequest` fields sent by `handleSubmit` (question, `top_k: 5`, and
the three filter fields read from the store). -/
structure QueryRequest where
  question : String
  top_k : Nat
  year_min : Option Int
  year_max : Option Int
  authors : Option (List String)
  deriving Repr, DecidableEq

def handleSubmitRequest (s : ChatState) (question : String) : QueryRequest :=
  { question := question, top_k := 5, year_min := s.filters.yearMin,
    year_max := s.filters.yearMax, authors := s.filters.authors }

/-- Whole `handleSubmit` flow as a state transformer: append the user
message, then append either the assistant response or the error message,
depending on how the awaited query resolved. -/
def handleSubmit (s : ChatState) (question : String)
    (outcome : Except Unit QueryResponse)
    (id1 : String) (ts1 : Nat) (id2 : String) (ts2 : Nat) : ChatState :=
  let s1 := handleSubmitDispatchState s question id1 ts1
  match outcome with
  | .ok r => addMessage s1 (assistantDraft r) id2 ts2
  | .error _ => addMessage s1 errorDraft id2 ts2

/-! ### Citation rendering (SourceCard.tsx, endpoints.ts) -/

/-- `Math.round`: round half away from zero is round half up for the
non-negative scores involved; embedded as `⌊q + 1/2⌋`. -/
def jsRound (q : ℚ) : Int :=
  ⌊q + 1 / 2⌋

/-- `const relevancePercent = Math.round(source.relevance_score * 100)`. -/
def relevancePercent (s : Source) : Int :=
  jsRound (s.relevance_score * 100)

/-- The Badge variants returned by `getRelevanceVariant`. -/
inductive BadgeVariant where
  | success
  | info
  | warning
  | default
  deriving Repr, DecidableEq

/-- `SourceCard.getRelevanceVariant`, applied to the rounded percent. -/
def getRelevanceVariant (score : Int) : BadgeVariant :=
  if score ≥ 80 then .success
  else if score ≥ 60 then .info
  else if score ≥ 40 then .warning
  else .default

/-- The display tiers named by the spec, keyed to the Badge variants:
success = high, info = medium-high, warning = medium, default = low. -/
inductive Tier where
  | high
  | mediumHigh
  | medium
  | low
  deriving Repr, DecidableEq

def variantTier : BadgeVariant → Tier
  | .success => .high
  | .info => .mediumHigh
  | .warning => .medium
  | .default => .low

/-- The display tier a `SourceCard` actually renders for a citation. -/
def displayTier (s : Source) : Tier :=
  variantTier (getRelevanceVariant (relevancePercent s))

/-- Spec-side tier function, following the spec's words for comparison:
thresholds on the raw score, ≥0.8 high, ≥0.6 medium-high, ≥0.4 medium,
else low. -/
def specTier (score : ℚ) : Tier :=
  if score ≥ 8 / 10 then .high
  else if score ≥ 6 / 10 then .mediumHigh
  else if score ≥ 4 / 10 then .medium
  else .low

/-- `getDocumentPdfUrl` from endpoints.ts. The `page ? ... : ...` conditional
follows JS number truthiness: `0` (and an absent page) selects the bare base
address. -/
def getDocumentPdfUrl (documentId : String) (page : Option Int) : String :=
  let base := "/api/v1/documents/" ++ documentId ++ "/pdf"
  match page with
  | some p => if p ≠ 0 then base ++ "#page=" ++ toString p else base
  | none => base

/-- The base document-view address, for stating properties of the deep link. -/
def pdfBase (documentId : String) : String :=
  "/api/v1/documents/" ++ documentId ++ "/pdf"

/-- The citation list a `SourceList` renders for a message: `sources.map`
iterates the array in index order, so the display order is the list order. -/
def displayedSources (m : Message) : List Source :=
  m.sources.getD []

/-! ### Cache invalidation (useDocuments.ts, useProjects in part_004) -/

/-- The `useDocuments` query parameters (part of the `documents` query key). -/
structure DocParams where
  page : Option Nat
  limit : Option Nat
  search : Option String
  status : Option String
  deriving Repr, DecidableEq

/-- The query keys the app registers: `['documents', params]`, `['health']`,
`['stats']`, `['projects', status]`, `['project', projectId]`. -/
inductive QueryKey where
  | documents (params : DocParams)
  | health
  | stats
  | projects (status : Option String)
  | project (id : String)
  deriving Repr, DecidableEq

/-- An `invalidateQueries({ queryKey: [...] })` target as written in the
mutation hooks. -/
inductive InvTarget where
  | documents
  | health
  | stats
  | projects
  | project (id : String)
  deriving Repr, DecidableEq

/-- react-query invalidation matches every registered key having the target
as a prefix: `['documents']` matches every `['documents', params]` key, and
`['project', id]` matches exactly `['project', id]`. -/
def targetMatches : InvTarget → QueryKey → Bool
  | .documents, .documents _ => true
  | .health, .health => true
  | .stats, .stats => true
  | .projects, .projects _ => true
  | .project i, .project j => i = j
  | _, _ => false

/-- Cache staleness: `c k = true` means the entry for `k` is marked stale. -/
abbrev Cache : Type :=
  QueryKey → Bool

/-- Invalidation marks every matching entry stale and touches nothing else. -/
def invalidateQueries (t : InvTarget) (c : Cache) : Cache :=
  fun k => c k || targetMatches t k

/-- `useDeleteDocument`'s `onSuccess`: invalidates `documents`, `health`,
`stats`. -/
def deleteDocumentOnSuccess (c : Cache) : Cache :=
  invalidateQueries .stats (invalidateQueries .health (invalidateQueries .documents c))

/-- `useAddProjectSource`'s `onSuccess`: invalidates `project:<id>` and
`projects`. -/
def addProjectSourceOnSuccess (projectId : String) (c : Cache) : Cache :=
  invalidateQueries .projects (invalidateQueries (.project projectId) c)

/-- `useUpdateProjectSection`'s `onSuccess`: invalidates `project:<id>` only. -/
def updateProjectSectionOnSuccess (projectId : String) (c : Cache) : Cache :=
  invalidateQueries (.project projectId) c

inductive ReadBehavior where
  | refetch
  | fromCache
  deriving Repr, DecidableEq

/-- The next read of a key refetches exactly when the entry is stale. -/
def nextRead (c : Cache) (k : QueryKey) : ReadBehavior :=
  if c k then .refetch else .fromCache

/-! ### Spec-modelled backend fragments

The repository under verification holds only the frontend client; the
backend behind `POST /query` and `POST /projects/{id}/sources` is an
external collaborator described only by the spec's contracts, so those two
behaviours are modelled from the spec's words. -/

/-- One citation's score is at least the other's: the descending display
relation on sources. -/
def scoreGE (a b : Source) : Prop :=
  b.relevance_score ≤ a.relevance_score

instance : DecidableRel scoreGE := fun a b =>
  inferInstanceAs (Decidable (b.relevance_score ≤ a.relevance_score))

instance : IsTotal Source scoreGE :=
  ⟨fun a b => le_total b.relevance_score a.relevance_score⟩

instance : IsTrans Source scoreGE :=
  ⟨fun _ _ _ h1 h2 => le_trans h2 h1⟩

/-- Modelled from the spec: the retrieval backend behind `POST /query` is not
part of this repository; per the spec, the sources of one answer are returned
sorted by descending `relevance_score`. Modelled as a sort of the raw
retrieval hits under `scoreGE`. -/
def backendQuerySources (hits : List Source) : List Source :=
  List.insertionSort scoreGE hits

/-- `ProjectSourceCreate` from types.ts (relevance kept as its string code). -/
structure ProjectSourceCreate where
  document_id : String
  notes : Option String
  relevance : String
  deriving Repr, DecidableEq

/-- `ProjectSourceInfo`, reduced to the fields the uniqueness invariant is
about. -/
structure ProjectSourceInfo where
  id : String
  document_id : String
  notes : Option String
  relevance : String
  deriving Repr, DecidableEq

/-- A project's attached-source list. -/
structure ProjectSources where
  sources : List ProjectSourceInfo
  deriving Repr, DecidableEq

inductive AttachError where
  | duplicateSource
  deriving Repr, DecidableEq

/-- Modelled from the spec: the backend attach operation behind
`POST /projects/{id}/sources` is not part of this repository; per the spec,
attaching a source whose `document_id` is already present in the project is
rejected with `DuplicateSourceError`, otherwise the source is appended. -/
def attachSource (p : ProjectSources) (data : ProjectSourceCreate)
    (freshId : String) : Except AttachError ProjectSources :=
  if data.document_id ∈ p.sources.map (fun s => s.document_id) then
    .error .duplicateSource
  else
    .ok { sources := p.sources ++
      [{ id := freshId, document_id := data.document_id,
         notes := data.notes, relevance := data.relevance }] }

/-- The project state the caller holds after an attach attempt: the new
state on success, the old state when the attach failed. -/
def projectAfterAttach (p : ProjectSources) (data : ProjectSourceCreate)
    (freshId : String) : ProjectSources :=
  match attachSource p data freshId with
  | .ok p' => p'
  | .error _ => p

/-! ### Theorems -/

/-- The two drop counts coincide, so `slice(-50)` is exactly the
last-`min(50, N)` window. -/
lemma jsSliceLast_eq_min_window (l : List Message) :
    l.drop (l.length - 50) = l.drop (l.length - min 50 l.length) := by
  congr 1
  omega

/-- Claim C1: for every sequence of store mutations, the message list the
persist middleware writes to durable storage is exactly the last
`min(50, N)` entries of the in-memory list (a suffix, hence in the same
relative order), and the full filter set is persisted alongside it. -/
theorem persist_window_spec (ops : List StoreOp) :
    (persistedState (runOps initialChatState ops)).messages
      = (runOps initialChatState ops).messages.drop
          ((runOps initialChatState ops).messages.length
            - min 50 (runOps initialChatState ops).messages.length)
    ∧ (persistedState (runOps initialChatState ops)).messages.length
      = min 50 (runOps initialChatState ops).messages.length
    ∧ (persistedState (runOps initialChatState ops)).messages.IsSuffix
        (runOps initialChatState ops).messages
    ∧ (persistedState (runOps initialChatState ops)).filters
      = (runOps initialChatState ops).filters := by
  set l := (runOps initialChatState ops).messages with hl
  refine ⟨?_, ?_, ?_, rfl⟩
  · exact jsSliceLast_eq_min_window l
  · show (l.drop (l.length - 50)).length = min 50 l.length
    rw [List.length_drop]
    omega
  · exact List.drop_suffix _ l

/-- Claim C2: `set-filters` is a shallow merge — every field whose key is
absent from the patch keeps its prior value — and the spec's two-step
example produces `{yearMin: 2020, authors: ["X"]}`. -/
theorem setFilters_merge_spec :
    (∀ (s : ChatState) (p : FiltersPatch),
      (p.yearMin = none → (setFilters s p).filters.yearMin = s.filters.yearMin)
      ∧ (p.yearMax = none → (setFilters s p).filters.yearMax = s.filters.yearMax)
      ∧ (p.authors = none → (setFilters s p).filters.authors = s.filters.authors))
    ∧ (setFilters (setFilters initialChatState { yearMin := some (some 2020) })
          { authors := some (some ["X"]) }).filters
        = { yearMin := some 2020, yearMax := none, authors := some ["X"] } := by
  refine ⟨fun s p => ⟨fun h => ?_, fun h => ?_, fun h => ?_⟩, rfl⟩
  all_goals simp [setFilters, mergeFilters, h]

/-- Witness for C2 at a concrete patch that leaves `yearMin` unspecified. -/
theorem setFilters_merge_spec_witness :
    (setFilters initialChatState { yearMax := some (some 2024) }).filters.yearMin
      = initialChatState.filters.yearMin :=
  (setFilters_merge_spec.1 initialChatState { yearMax := some (some 2024) }).1 rfl

/-- Claim C9: frame property of the store — `addMessage` and
`clearMessages` leave the filters unchanged, `setFilters` and
`clearFilters` leave the message list unchanged. -/
theorem store_frame_spec (s : ChatState) (d : MessageDraft) (id : String)
    (ts : Nat) (p : FiltersPatch) :
    (addMessage s d id ts).filters = s.filters
    ∧ (clearMessages s).filters = s.filters
    ∧ (setFilters s p).messages = s.messages
    ∧ (clearFilters s).messages = s.messages :=
  ⟨rfl, rfl, rfl, rfl⟩

/-- Claim C10: merging is by key presence, not defined value — a key present
with value `undefined` clears the prior field — and `handleApply`, which
always passes all three keys, erases any constraint whose input box is
empty. -/
theorem setFilters_undefined_overwrites_spec (s : ChatState)
    (yMinS yMaxS aS : String) :
    (setFilters s { yearMin := some none }).filters.yearMin = none
    ∧ (yMinS = "" → (handleApply s yMinS yMaxS aS).filters.yearMin = none)
    ∧ (yMaxS = "" → (handleApply s yMinS yMaxS aS).filters.yearMax = none)
    ∧ (aS = "" → (handleApply s yMinS yMaxS aS).filters.authors = none) := by
  refine ⟨rfl, fun h => ?_, fun h => ?_, fun h => ?_⟩
  all_goals subst h; simp [handleApply, setFilters, mergeFilters]

/-- Witness for C10: a previously-set `yearMin` is erased by applying the
panel with all input boxes empty. -/
theorem setFilters_undefined_overwrites_spec_witness :
    (handleApply (setFilters initialChatState { yearMin := some (some 2020) })
        "" "" "").filters.yearMin = none :=
  (setFilters_undefined_overwrites_spec
    (setFilters initialChatState { yearMin := some (some 2020) }) "" "" "").2.1 rfl

/-- Claim C8: the user message is appended synchronously before the query
dispatch (it is already in the state the request is built from), and a
failed query appends an error-content assistant message without removing
the preceding user message. -/
theorem submit_error_no_rollback_spec (s : ChatState) (q : String)
    (id1 id2 : String) (ts1 ts2 : Nat) :
    (handleSubmitDispatchState s q id1 ts1).messages
      = s.messages ++ [⟨id1, .user, q, none, none, ts1⟩]
    ∧ (handleSubmit s q (.error ()) id1 ts1 id2 ts2).messages
      = s.messages ++ [⟨id1, .user, q, none, none, ts1⟩,
          ⟨id2, .assistant, errorDraft.content, none, none, ts2⟩] := by
  constructor
  · rfl
  · simp [handleSubmit, handleSubmitDispatchState, addMessage, userDraft, errorDraft]

/-- Claim C6: each mutating hook invalidates exactly its declared static key
set — `deleteDocument` marks the `documents`, `health`, `stats` entries
stale (so their next read refetches) and nothing else; `addProjectSource`
marks `project:<id>` and `projects`; `updateProjectSection` marks only
`project:<id>`. -/
theorem invalidation_sets_spec (c : Cache) (k : QueryKey) (pid : String) :
    (deleteDocumentOnSuccess c k
      = (c k || targetMatches .documents k || targetMatches .health k
          || targetMatches .stats k))
    ∧ (∀ params, nextRead (deleteDocumentOnSuccess c) (.documents params) = .refetch)
    ∧ nextRead (deleteDocumentOnSuccess c) .health = .refetch
    ∧ nextRead (deleteDocumentOnSuccess c) .stats = .refetch
    ∧ (addProjectSourceOnSuccess pid c k
      = (c k || targetMatches (.project pid) k || targetMatches .projects k))
    ∧ (updateProjectSectionOnSuccess pid c k
      = (c k || targetMatches (.project pid) k)) := by
  refine ⟨rfl, fun params => ?_, ?_, ?_, rfl, rfl⟩
  all_goals
    simp [nextRead, deleteDocumentOnSuccess, invalidateQueries, targetMatches]

/-- Claim C3: on backend success, `handleSubmit` appends an assistant
message carrying the response sources verbatim, and the citations
`SourceList` displays for that message are in descending
`relevance_score` order (the backend's sort is preserved by the client). -/
theorem citation_display_order_spec (s : ChatState) (q a : String) (t : Nat)
    (hits : List Source) (id1 id2 : String) (ts1 ts2 : Nat) :
    (handleSubmit s q (.ok ⟨a, backendQuerySources hits, t⟩) id1 ts1 id2 ts2).messages.getLast?
      = some ⟨id2, .assistant, a, some (backendQuerySources hits), some t, ts2⟩
    ∧ List.Sorted scoreGE
        (displayedSources ⟨id2, .assistant, a, some (backendQuerySources hits), some t, ts2⟩) := by
  constructor
  · simp [handleSubmit, handleSubmitDispatchState, addMessage, assistantDraft]
  · show List.Sorted scoreGE (backendQuerySources hits)
    exact List.sorted_insertionSort scoreGE hits

/-- Claim C7: attaching a source whose `document_id` is already present in
the project fails with `DuplicateSourceError`, and the source list the
caller holds after the failed attach is unchanged. -/
theorem duplicate_attach_spec (p : ProjectSources) (data : ProjectSourceCreate)
    (fid : String)
    (h : data.document_id ∈ p.sources.map (fun s => s.document_id)) :
    attachSource p data fid = .error .duplicateSource
    ∧ projectAfterAttach p data fid = p := by
  constructor
  · simp [attachSource, h]
  · simp [projectAfterAttach, attachSource, h]

/-- Witness for C7: re-attaching an already-attached document. -/
theorem duplicate_attach_spec_witness :
    attachSource ⟨[⟨"s1", "d1", none, "medium"⟩]⟩ ⟨"d1", none, "high"⟩ "s2"
      = .error .duplicateSource
    ∧ projectAfterAttach ⟨[⟨"s1", "d1", none, "medium"⟩]⟩ ⟨"d1", none, "high"⟩ "s2"
      = ⟨[⟨"s1", "d1", none, "medium"⟩]⟩ :=
  duplicate_attach_spec ⟨[⟨"s1", "d1", none, "medium"⟩]⟩ ⟨"d1", none, "high"⟩ "s2"
    (by decide)

/-- Threshold 80 on the rounded percent is threshold 0.795 on the raw score. -/
lemma jsRound_ge_80_iff (q : ℚ) : jsRound (q * 100) ≥ 80 ↔ q ≥ 795 / 1000 := by
  show (80 : ℤ) ≤ ⌊q * 100 + 1 / 2⌋ ↔ _
  rw [Int.le_floor]
  push_cast
  constructor <;> intro h <;> linarith

/-- Threshold 60 on the rounded percent is threshold 0.595 on the raw score. -/
lemma jsRound_ge_60_iff (q : ℚ) : jsRound (q * 100) ≥ 60 ↔ q ≥ 595 / 1000 := by
  show (60 : ℤ) ≤ ⌊q * 100 + 1 / 2⌋ ↔ _
  rw [Int.le_floor]
  push_cast
  constructor <;> intro h <;> linarith

/-- Threshold 40 on the rounded percent is threshold 0.395 on the raw score. -/
lemma jsRound_ge_40_iff (q : ℚ) : jsRound (q * 100) ≥ 40 ↔ q ≥ 395 / 1000 := by
  show (40 : ℤ) ≤ ⌊q * 100 + 1 / 2⌋ ↔ _
  rw [Int.le_floor]
  push_cast
  constructor <;> intro h <;> linarith

/-- The raw-score thresholds that the rounding in `relevancePercent`
actually induces on the display tier. -/
def specTierRounded (score : ℚ) : Tier :=
  if score ≥ 795 / 1000 then .high
  else if score ≥ 595 / 1000 then .mediumHigh
  else if score ≥ 395 / 1000 then .medium
  else .low

/-- The tier a `SourceCard` renders is the rounded-threshold tier. -/
lemma displayTier_eq_rounded (s : Source) :
    displayTier s = specTierRounded s.relevance_score := by
  simp only [displayTier, getRelevanceVariant, relevancePercent, specTierRounded,
    jsRound_ge_80_iff, jsRound_ge_60_iff, jsRound_ge_40_iff]
  split_ifs <;> rfl

/-- Counterexample to claim C4: at `relevance_score = 0.799` the code rounds
the percent up to 80 and renders the high tier, while the claimed raw-score
thresholds put 0.799 below 0.8, in the medium-high tier. -/
theorem tier_threshold_counterexample :
    displayTier ⟨"doc", "T", none, none, none, 799 / 1000⟩ = .high
    ∧ specTier (799 / 1000) = .mediumHigh
    ∧ displayTier ⟨"doc", "T", none, none, none, 799 / 1000⟩ ≠ specTier (799 / 1000) := by
  refine ⟨?_, ?_, ?_⟩
  · rw [displayTier_eq_rounded]
    norm_num [specTierRounded]
  · norm_num [specTier]
  · rw [displayTier_eq_rounded]
    norm_num [specTierRounded, specTier]
    decide

/-- Claim C4 (amended): the display tier is derived purely from
`relevance_score` through the rounded integer percent, so the effective
raw-score thresholds are ≥0.795 high, ≥0.595 medium-high, ≥0.395 medium,
else low; `0.85` still resolves to high and `0.55` to medium. -/
theorem tier_thresholds_spec (s : Source) :
    displayTier s = specTierRounded s.relevance_score
    ∧ displayTier ⟨"d1", "T", none, none, none, 85 / 100⟩ = .high
    ∧ displayTier ⟨"d2", "T", none, none, none, 55 / 100⟩ = .medium := by
  refine ⟨displayTier_eq_rounded s, ?_, ?_⟩
  · rw [displayTier_eq_rounded]
    norm_num [specTierRounded]
  · rw [displayTier_eq_rounded]
    norm_num [specTierRounded]

/-- Counterexample to claim C5: a citation whose page number is present but
equal to 0 resolves to the bare base address — the page fragment is not
appended even though a page number is present, because JS number truthiness
treats 0 like an absent page. -/
theorem pdf_link_counterexample :
    getDocumentPdfUrl "doc" (some 0) = pdfBase "doc"
    ∧ getDocumentPdfUrl "doc" (some 0) ≠ pdfBase "doc" ++ "#page=" ++ toString (0 : Int) := by
  constructor
  · rfl
  · decide

/-- Claim C5 (amended): the resolved deep link is the base document-view
address, with a `#page=<n>` fragment appended if and only if a nonzero page
number is present; the resolution is a pure mapping. -/
theorem pdf_link_spec (d : String) (n : Int) :
    getDocumentPdfUrl d none = pdfBase d
    ∧ getDocumentPdfUrl d (some 0) = pdfBase d
    ∧ (n ≠ 0 → getDocumentPdfUrl d (some n) = pdfBase d ++ "#page=" ++ toString n) := by
  refine ⟨rfl, rfl, fun h => ?_⟩
  simp [getDocumentPdfUrl, pdfBase, h]

/-- Witness for C5 at page 3. -/
theorem pdf_link_spec_witness :
    getDocumentPdfUrl "doc" (some 3) = pdfBase "doc" ++ "#page=" ++ toString (3 : Int) :=
  (pdf_link_spec "doc" 3).2.2 (by decide)

end LlmLabo
